import Mathlib

/-
Verification of the CNC machine-control core (app/core/controller.py).

The controller is embedded shallowly.  Machine floats are modelled as
rationals; the LinuxCNC status/command/error objects are modelled as an
environment (`Env`) providing the result of each successive status poll
and the errors produced by an MDI dispatch, together with a threaded
state (`St`) holding the poll index, the last successfully polled
snapshot (the `self.status` object after its most recent `poll()`), and
the pending error-channel queue.  Every externally visible interaction
(poll attempts, sleeps, dispatched state/mode/MDI/home commands and
completion waits) is recorded in an event trace.
-/

namespace CNC

/-- Task state of the machine, the values of `linuxcnc.STATE_*` used by the
controller: ESTOP, ESTOP_RESET, OFF, ON. -/
inductive TaskState where
  | estop
  | estopReset
  | off
  | on_
deriving DecidableEq, Repr

/-- Interpreter state (`linuxcnc.INTERP_*`); the controller only ever
compares against IDLE. -/
inductive InterpState where
  | idle
  | running
  | paused
deriving DecidableEq, Repr

/-- Machine mode (`linuxcnc.MODE_*`). -/
inductive MachMode where
  | manual
  | mdi
  | auto
deriving DecidableEq, Repr

/-- One pending error drained from the error channel: (error kind, error
text), as returned by `error_channel.poll()`. -/
abbrev PendingError : Type := Int × String

/-- Point-in-time read of machine state, the fields of `linuxcnc.stat()`
that the controller consults.  `homed` is `none` when the attribute is
absent (the controller reads it with `getattr(..., None)`), and
`axis_mask` is `none` when absent (read with `getattr(..., 0)`). -/
structure Snapshot where
  position : List ℚ
  homed : Option (List Bool)
  axis_mask : Option Int
  task_state : TaskState
  interp_state : InterpState
  current_vel : ℚ
deriving DecidableEq, Repr

/-- Snapshot read before any successful poll; on every reachable path the
controller polls (and checks the poll succeeded) before reading, so this
default is never consulted by a method that returns normally. -/
def defaultSnapshot : Snapshot :=
  { position := []
    homed := none
    axis_mask := none
    task_state := TaskState.off
    interp_state := InterpState.idle
    current_vel := 0 }

/-- Externally visible interactions of the controller with LinuxCNC. -/
inductive Event where
  | pollAttempt (ok : Bool)
  | sleep (d : ℚ)
  | cmdState (target : TaskState)
  | waitComplete
  | cmdMode (m : MachMode)
  | cmdMdi (gcode : String)
  | cmdHome (joint : Nat)
  | errPoll (found : Bool)
deriving DecidableEq, Repr

/-- Environment: result of the k-th call to `status.poll()` overall
(`none` models the poll raising), and the errors the machine pushes onto
the error channel as a consequence of executing a given MDI command. -/
structure Env where
  poll : Nat → Option Snapshot
  mdiErrors : String → List PendingError

/-- Environment in which every poll succeeds and always returns the same
snapshot, and MDI commands produce no errors. -/
def constEnv (s : Snapshot) : Env :=
  { poll := fun _ => some s
    mdiErrors := fun _ => [] }

/-- Threaded controller state: how many `status.poll()` calls have been
made, the snapshot held by `self.status` after its last successful poll,
and the queue of pending errors on the error channel. -/
structure St where
  pollIdx : Nat
  lastStatus : Option Snapshot
  errQueue : List PendingError
deriving DecidableEq

/-- Typed failures raised by the controller (app/core/exceptions.py):
connection failure, not homed, E-stop active, motion failure (carrying
the first drained error and the dispatched G-code).  `fuelExhausted` is a
model artifact: the source's unbounded completion-wait loops are given
explicit fuel, and running out of fuel is reported as this distinguished
outcome (it corresponds to no behaviour of the source other than looping
longer). `indexError` models Python's IndexError on a too-short position
sequence. -/
inductive Err where
  | connection
  | notHomed
  | estopActive
  | motion (kind : Int) (text : String) (gcode : String)
  | indexError
  | fuelExhausted
deriving DecidableEq, Repr

/-- Computation of the controller: from a state, produce a result or a
typed failure, the new state, and the trace of events performed. -/
def M (α : Type) : Type := St → Except Err α × St × List Event

/-- Return a value, no effect. -/
def M.pure {α : Type} (a : α) : M α := fun st => (Except.ok a, st, [])

/-- Sequencing: run `m`; on success feed its value to `f`; a failure
short-circuits (as a raised Python exception does).  Traces concatenate. -/
def M.bind {α β : Type} (m : M α) (f : α → M β) : M β := fun st =>
  match m st with
  | (Except.ok a, st1, evs) =>
    match f a st1 with
    | (r, st2, evs2) => (r, st2, evs ++ evs2)
  | (Except.error e, st1, evs) => (Except.error e, st1, evs)

/-- Raise a typed failure. -/
def M.throw {α : Type} (e : Err) : M α := fun st => (Except.error e, st, [])

/-- Record one externally visible interaction. -/
def M.emit (ev : Event) : M Unit := fun st => (Except.ok (), st, [ev])

/-- Read `self.status` (the snapshot left by the most recent successful
poll). -/
def M.readStatus : M Snapshot := fun st =>
  (Except.ok (st.lastStatus.getD defaultSnapshot), st, [])

/-- Population count with explicit fuel (first argument); with fuel at
least `n` this is the number of 1 bits of `n`, i.e. Python's
`bin(n).count('1')` for nonnegative `n`. -/
def popcountAux : Nat → Nat → Nat
  | 0, _ => 0
  | _ + 1, 0 => 0
  | fuel + 1, n + 1 => (n + 1) % 2 + popcountAux fuel ((n + 1) / 2)

/-- Number of 1 bits in the binary expansion of `n`; Python's
`bin(n).count('1')`. -/
def popcount (n : Nat) : Nat := popcountAux n n

/-- Rounding of a rational to the nearest integer, ties to even — the
rounding Python's fixed-point format applies to the (here: exactly
represented) value. -/
def roundHalfEven (q : ℚ) : Int :=
  let f : Int := q.floor
  let r : ℚ := q - (f : ℚ)
  if r < 1 / 2 then f
  else if 1 / 2 < r then f + 1
  else if f % 2 = 0 then f else f + 1

/-- Left-pad a string with zeros to the given length. -/
def padZeros (s : String) (n : Nat) : String :=
  String.mk (List.replicate (n - s.length) '0') ++ s

/-- Fixed-point rendering with 4 decimal places: Python's `f"{v:.4f}"`
on a value the float represents exactly. -/
def fmt4 (q : ℚ) : String :=
  let n : Int := roundHalfEven (q * 10000)
  let sign : String := if n < 0 then "-" else ""
  let m : Nat := n.natAbs
  sign ++ toString (m / 10000) ++ "." ++ padZeros (toString (m % 10000)) 4

/-- CNCController._build_gcode_command: build the G-code word list and
join with single spaces.  Mirrors the Python word appends in order:
"G21"; "G90"/"G91"; "G0"/"G1"; X, Y, Z words only when the axis value is
present; the F word only when not rapid. -/
def build_gcode_command (x y z : Option ℚ) (feed_rate : ℚ)
    (rapid absolute : Bool) : String :=
  let words : List String := ["G21"]
  let words := words ++ [if absolute then "G90" else "G91"]
  let words := words ++ [if rapid then "G0" else "G1"]
  let words := words ++ (match x with
    | some v => ["X" ++ fmt4 v]
    | none => [])
  let words := words ++ (match y with
    | some v => ["Y" ++ fmt4 v]
    | none => [])
  let words := words ++ (match z with
    | some v => ["Z" ++ fmt4 v]
    | none => [])
  let words := words ++ (if rapid then [] else ["F" ++ fmt4 feed_rate])
  String.intercalate " " words

/-- CNCController._poll_status retry loop, `for attempt in range(3)`:
first argument is the current `attempt`, second the number of loop
iterations left.  On an attempt that raises, when iterations remain
(`attempt < max_retries - 1`) sleep `poll_interval * (attempt + 1)` and
retry; when the loop is exhausted raise a Connection error. -/
def poll_status_go (env : Env) (interval : ℚ) : Nat → Nat → M Unit
  | _, 0 => M.throw Err.connection
  | attempt, rem + 1 => fun st =>
    match env.poll st.pollIdx with
    | some s =>
      (Except.ok (),
       { st with pollIdx := st.pollIdx + 1, lastStatus := some s },
       [Event.pollAttempt true])
    | none =>
      let st1 : St := { st with pollIdx := st.pollIdx + 1 }
      let tail := poll_status_go env interval (attempt + 1) rem st1
      let evs0 : List Event :=
        if 0 < rem then
          [Event.pollAttempt false, Event.sleep (interval * ((attempt + 1 : Nat) : ℚ))]
        else
          [Event.pollAttempt false]
      (tail.1, tail.2.1, evs0 ++ tail.2.2)

/-- CNCController._poll_status: up to `max_retries = 3` poll attempts. -/
def poll_status (env : Env) (interval : ℚ) : M Unit :=
  poll_status_go env interval 0 3

/-- CNCController._drain_error_messages: poll the error channel until it
returns a falsy value, returning all drained (kind, text) pairs. -/
def drain_error_messages : M (List PendingError) := fun st =>
  (Except.ok st.errQueue,
   { st with errQueue := [] },
   (st.errQueue.map fun _ => Event.errPoll true) ++ [Event.errPoll false])

/-- CNCController._wait_for_interpreter_idle: poll until the interpreter
state is INTERP_IDLE, sleeping `poll_interval` between polls.  The
source loop is unbounded; the model bounds it with explicit fuel. -/
def wait_for_interpreter_idle (env : Env) (interval : ℚ) : Nat → M Unit
  | 0 => M.throw Err.fuelExhausted
  | fuel + 1 =>
    M.bind (poll_status env interval) (fun _ =>
    M.bind M.readStatus (fun s =>
    if s.interp_state = InterpState.idle then M.pure ()
    else
      M.bind (M.emit (Event.sleep interval)) (fun _ =>
      wait_for_interpreter_idle env interval fuel)))

/-- CNCController._ensure_machine_on: poll; if task state is ESTOP,
dispatch ESTOP_RESET, wait for completion and re-poll; then, if task
state is still not ON, dispatch ON and wait for completion. -/
def ensure_machine_on (env : Env) (interval : ℚ) : M Unit :=
  M.bind (poll_status env interval) (fun _ =>
  M.bind M.readStatus (fun s =>
  M.bind (if s.task_state = TaskState.estop then
            M.bind (M.emit (Event.cmdState TaskState.estopReset)) (fun _ =>
            M.bind (M.emit Event.waitComplete) (fun _ =>
            poll_status env interval))
          else M.pure ()) (fun _ =>
  M.bind M.readStatus (fun s2 =>
  if s2.task_state ≠ TaskState.on_ then
    M.bind (M.emit (Event.cmdState TaskState.on_)) (fun _ =>
    M.emit Event.waitComplete)
  else M.pure ()))))

/-- CNCController._switch_to_mdi_mode: dispatch MODE_MDI and wait for
completion. -/
def switch_to_mdi_mode : M Unit :=
  M.bind (M.emit (Event.cmdMode MachMode.mdi)) (fun _ =>
  M.emit Event.waitComplete)

/-- Joint-count derivation at the verify-homed site (controller.py lines
150-155): `axis_mask = getattr(self.status, "axis_mask", 0)`; population
count of the mask when positive, else 3. -/
def num_joints_verify (s : Snapshot) : Nat :=
  let axis_mask : Int := s.axis_mask.getD 0
  if 0 < axis_mask then popcount axis_mask.toNat else 3

/-- Joint-count derivation at the homing site (controller.py lines
238-247), written out separately because the source duplicates it there:
population count of the mask when positive, else 3. -/
def num_joints_home (s : Snapshot) : Nat :=
  let axis_mask : Int := s.axis_mask.getD 0
  if 0 < axis_mask then popcount axis_mask.toNat else 3

/-- CNCController._verify_machine_homed: poll; read homed flags
(`getattr(..., None)`) and the joint count; the check passes only when
the flag list is present, has at least `num_joints` entries, and its
first `num_joints` entries are all true; otherwise raise NotHomed. -/
def verify_machine_homed (env : Env) (interval : ℚ) : M Unit :=
  M.bind (poll_status env interval) (fun _ =>
  M.bind M.readStatus (fun s =>
    let num_joints := num_joints_verify s
    match s.homed with
    | some hs =>
      if num_joints ≤ hs.length then
        if (hs.take num_joints).all (fun b => b) then M.pure ()
        else M.throw Err.notHomed
      else M.throw Err.notHomed
    | none => M.throw Err.notHomed))

/-- Model of the machine pushing the errors caused by an MDI command onto
the error channel after the dispatch. -/
def push_mdi_errors (env : Env) (gcode : String) : M Unit := fun st =>
  (Except.ok (), { st with errQueue := st.errQueue ++ env.mdiErrors gcode }, [])

/-- CNCController._execute_mdi_command: dispatch the command via MDI,
wait for the dispatch to complete, optionally wait for the interpreter
to return to idle, then drain the error channel and raise a Motion error
carrying the first drained (kind, text) pair and the command. -/
def execute_mdi_command (env : Env) (interval : ℚ) (fuel : Nat)
    (gcode : String) (wait : Bool) : M Unit :=
  M.bind (M.emit (Event.cmdMdi gcode)) (fun _ =>
  M.bind (M.emit Event.waitComplete) (fun _ =>
  M.bind (push_mdi_errors env gcode) (fun _ =>
  M.bind (if wait then wait_for_interpreter_idle env interval fuel else M.pure ()) (fun _ =>
  M.bind drain_error_messages (fun errors =>
  match errors with
  | [] => M.pure ()
  | (kind, text) :: _ => M.throw (Err.motion kind text gcode))))))

/-- CNCController._execute_move: drain stale errors; ensure the machine
is on; verify homed; switch to MDI mode; build the G-code command;
execute it via MDI; return the command text. -/
def execute_move (env : Env) (interval : ℚ) (fuel : Nat)
    (x y z : Option ℚ) (feed_rate : ℚ) (rapid absolute wait : Bool) : M String :=
  M.bind drain_error_messages (fun _ =>
  M.bind (ensure_machine_on env interval) (fun _ =>
  M.bind (verify_machine_homed env interval) (fun _ =>
  M.bind switch_to_mdi_mode (fun _ =>
    let gcode := build_gcode_command x y z feed_rate rapid absolute
    M.bind (execute_mdi_command env interval fuel gcode wait) (fun _ =>
    M.pure gcode)))))

/-- CNCController.move_absolute: `_execute_move` with absolute
positioning. -/
def move_absolute (env : Env) (interval : ℚ) (fuel : Nat)
    (x y z : Option ℚ) (feed_rate : ℚ) (rapid wait : Bool) : M String :=
  execute_move env interval fuel x y z feed_rate rapid true wait

/-- CNCController.move_relative: `_execute_move` with relative
positioning. -/
def move_relative (env : Env) (interval : ℚ) (fuel : Nat)
    (x y z : Option ℚ) (feed_rate : ℚ) (rapid wait : Bool) : M String :=
  execute_move env interval fuel x y z feed_rate rapid false wait

/-- Loop `for joint_index in range(num_joints): self.command.home(joint_index)`:
issues one home request per joint index, ascending. -/
def home_joints (num_joints : Nat) : M Unit := fun st =>
  (Except.ok (), st, (List.range num_joints).map Event.cmdHome)

/-- CNCController._wait_for_homing_complete: poll until the homed list is
nonempty and its first `num_joints` entries (the whole list when
`num_joints = 0`) are all true, sleeping between polls.  The source loop
is unbounded; the model bounds it with explicit fuel. -/
def wait_for_homing_complete (env : Env) (interval : ℚ) (num_joints : Nat) :
    Nat → M Unit
  | 0 => M.throw Err.fuelExhausted
  | fuel + 1 =>
    M.bind (poll_status env interval) (fun _ =>
    M.bind M.readStatus (fun s =>
      let homed := s.homed.getD []
      let joints_to_check := if 0 < num_joints then homed.take num_joints else homed
      if (!homed.isEmpty && joints_to_check.all (fun b => b)) = true then M.pure ()
      else
        M.bind (M.emit (Event.sleep interval)) (fun _ =>
        wait_for_homing_complete env interval num_joints fuel)))

/-- CNCController.home_all_axes: ensure on; switch to MANUAL mode and
wait; re-poll; derive the joint count from the axis mask; home joints
0..N-1 in ascending order; optionally wait for homing to complete. -/
def home_all_axes (env : Env) (interval : ℚ) (fuel : Nat) (wait : Bool) : M Unit :=
  M.bind (ensure_machine_on env interval) (fun _ =>
  M.bind (M.emit (Event.cmdMode MachMode.manual)) (fun _ =>
  M.bind (M.emit Event.waitComplete) (fun _ =>
  M.bind (poll_status env interval) (fun _ =>
  M.bind M.readStatus (fun s =>
    let num_joints := num_joints_home s
    M.bind (home_joints num_joints) (fun _ =>
    if wait then wait_for_homing_complete env interval num_joints fuel
    else M.pure ()))))))

/-- CNCController.get_current_position: poll, then read the first three
position entries as x, y, z, and the fourth as a when present, else 0.0.
A position sequence shorter than 3 raises (Python IndexError). -/
def get_current_position (env : Env) (interval : ℚ) : M (List (String × ℚ)) :=
  M.bind (poll_status env interval) (fun _ =>
  M.bind M.readStatus (fun s =>
  match s.position with
  | p0 :: p1 :: p2 :: rest =>
    M.pure [("x", p0), ("y", p1), ("z", p2),
            ("a", match rest with
                  | a :: _ => a
                  | [] => 0)]
  | _ => M.throw Err.indexError))

/-- Status report returned by CNCController.get_machine_status. -/
structure StatusReport where
  position : List (String × ℚ)
  homed : List Bool
  estop_active : Bool
  machine_on : Bool
  interp_state : InterpState
  feed_rate : ℚ
deriving DecidableEq, Repr

/-- Construction of the report dict from the current snapshot and the
position mapping: `estop_active` compares the task state against ESTOP,
`machine_on` compares the same task-state value against ON, `feed_rate`
converts velocity to mm/min. -/
def mk_status_report (s : Snapshot) (pos : List (String × ℚ)) : StatusReport :=
  { position := pos
    homed := s.homed.getD []
    estop_active := s.task_state = TaskState.estop
    machine_on := s.task_state = TaskState.on_
    interp_state := s.interp_state
    feed_rate := s.current_vel * 60 }

/-- CNCController.get_machine_status: poll; evaluate the dict fields in
order — the position field calls get_current_position (which re-polls),
and the remaining fields read the status left by that second poll. -/
def get_machine_status (env : Env) (interval : ℚ) : M StatusReport :=
  M.bind (poll_status env interval) (fun _ =>
  M.bind (get_current_position env interval) (fun pos =>
  M.bind M.readStatus (fun s =>
  M.pure (mk_status_report s pos))))

/-- CNCController.emergency_stop: dispatch STATE_ESTOP and wait for
completion; nothing else. -/
def emergency_stop : M Unit :=
  M.bind (M.emit (Event.cmdState TaskState.estop)) (fun _ =>
  M.emit Event.waitComplete)

/-- CNCController.reset_emergency_stop: dispatch STATE_ESTOP_RESET and
wait for completion. -/
def reset_emergency_stop : M Unit :=
  M.bind (M.emit (Event.cmdState TaskState.estopReset)) (fun _ =>
  M.emit Event.waitComplete)

/-- CNCController.machine_on: poll; raise EStopActive if the task state
is ESTOP; otherwise dispatch STATE_ON and wait for completion. -/
def machine_on (env : Env) (interval : ℚ) : M Unit :=
  M.bind (poll_status env interval) (fun _ =>
  M.bind M.readStatus (fun s =>
  if s.task_state = TaskState.estop then M.throw Err.estopActive
  else
    M.bind (M.emit (Event.cmdState TaskState.on_)) (fun _ =>
    M.emit Event.waitComplete)))

/-- CNCController.machine_off: dispatch STATE_OFF and wait for
completion. -/
def machine_off : M Unit :=
  M.bind (M.emit (Event.cmdState TaskState.off)) (fun _ =>
  M.emit Event.waitComplete)

/-- Does an event test whether it is a status-poll attempt? -/
def is_poll_event : Event → Bool
  | Event.pollAttempt _ => true
  | _ => false

/-- Does an event dispatch a home request? -/
def is_home_event : Event → Bool
  | Event.cmdHome _ => true
  | _ => false

/-- Events produced by draining an error queue: one successful
error-channel poll per pending message, then the empty poll that ends
the loop. -/
def drain_events (q : List PendingError) : List Event :=
  (q.map fun _ => Event.errPoll true) ++ [Event.errPoll false]

/-- Under an all-successful constant environment, a status poll succeeds
on the first attempt and caches the snapshot. -/
theorem poll_status_const (s : Snapshot) (i : ℚ) (st : St) :
    poll_status (constEnv s) i st =
      (Except.ok (), { st with pollIdx := st.pollIdx + 1, lastStatus := some s },
       [Event.pollAttempt true]) := rfl

/-- Events produced by the ensure-on step when every poll returns the
snapshot `s`: one poll; when ESTOP was observed, additionally the
ESTOP_RESET dispatch with wait and the re-poll, after which the state is
still not ON, so the ON dispatch follows; when the state was already ON,
nothing further; otherwise the ON dispatch with wait. -/
def ensure_on_events_const (s : Snapshot) : List Event :=
  if s.task_state = TaskState.estop then
    [Event.pollAttempt true, Event.cmdState TaskState.estopReset, Event.waitComplete,
     Event.pollAttempt true, Event.cmdState TaskState.on_, Event.waitComplete]
  else if s.task_state = TaskState.on_ then [Event.pollAttempt true]
  else [Event.pollAttempt true, Event.cmdState TaskState.on_, Event.waitComplete]

/-- Number of polls the ensure-on step makes under a constant
environment. -/
def ensure_poll_count (s : Snapshot) : Nat :=
  if s.task_state = TaskState.estop then 2 else 1

/-- Full characterisation of the ensure-on step under a constant
all-successful environment. -/
theorem ensure_machine_on_const (s : Snapshot) (i : ℚ) (st : St) :
    ensure_machine_on (constEnv s) i st =
      (Except.ok (), { st with pollIdx := st.pollIdx + ensure_poll_count s, lastStatus := some s },
       ensure_on_events_const s) := by
  obtain ⟨pos, hom, mask, ts, istate, vel⟩ := s
  cases ts <;> rfl

/-- Inversion of a successful bind: both halves succeeded and the traces
concatenate. -/
theorem M.bind_ok {α β : Type} {m : M α} {f : α → M β} {st st2 : St} {b : β}
    {evs : List Event} (h : M.bind m f st = (Except.ok b, st2, evs)) :
    ∃ a st1 evs1 evs2, m st = (Except.ok a, st1, evs1) ∧
      f a st1 = (Except.ok b, st2, evs2) ∧ evs = evs1 ++ evs2 := by
  rcases hm : m st with ⟨r, st1, evs1⟩
  cases r with
  | ok a =>
    rcases hf : f a st1 with ⟨r2, st2', evs2'⟩
    cases r2 with
    | ok b2 =>
      have hbind : M.bind m f st = (Except.ok b2, st2', evs1 ++ evs2') := by
        unfold M.bind
        simp only [hm, hf]
      rw [hbind] at h
      simp only [Prod.mk.injEq, Except.ok.injEq] at h
      obtain ⟨hb, hst, hevs⟩ := h
      subst hb hst
      exact ⟨a, st1, evs1, evs2', rfl, hf, hevs.symm⟩
    | error e =>
      have hbind : M.bind m f st = (Except.error e, st2', evs1 ++ evs2') := by
        unfold M.bind
        simp only [hm, hf]
      rw [hbind] at h
      simp at h
  | error e =>
    have hbind : M.bind m f st = (Except.error e, st1, evs1) := by
      unfold M.bind
      simp only [hm]
    rw [hbind] at h
    simp at h

/-- Initial controller state: no polls made, no cached status, empty
error queue. -/
def st0 : St := { pollIdx := 0, lastStatus := none, errQueue := [] }

/-- Snapshot whose task state is ESTOP. -/
def snap_estop : Snapshot := { defaultSnapshot with task_state := TaskState.estop }

/-- Snapshot whose task state is ON. -/
def snap_on : Snapshot := { defaultSnapshot with task_state := TaskState.on_ }

/-- C3: for every current task state (OFF, ON, or already ESTOP),
`emergency_stop` performs no precondition check and no status poll: its
complete behaviour from any state is to dispatch the ESTOP state
transition, then block on the completion wait, returning successfully —
the result is ok, the state is untouched, and the trace is exactly the
ESTOP dispatch followed by the completion wait. -/
theorem c3_estop_always (st : St) :
    emergency_stop st =
      (Except.ok (), st, [Event.cmdState TaskState.estop, Event.waitComplete]) := rfl

/-- C4: when the polled snapshot's task state is ESTOP, `machine_on`
raises EStopActive and dispatches no state transition (the trace holds
only the poll); otherwise it dispatches the ON transition and blocks on
the completion wait. -/
theorem c4_power_on_estop_gate (env : Env) (i : ℚ) (st : St) (s : Snapshot)
    (hpoll : env.poll st.pollIdx = some s) :
    (s.task_state = TaskState.estop →
      machine_on env i st =
        (Except.error Err.estopActive,
         { st with pollIdx := st.pollIdx + 1, lastStatus := some s },
         [Event.pollAttempt true])) ∧
    (s.task_state ≠ TaskState.estop →
      machine_on env i st =
        (Except.ok (),
         { st with pollIdx := st.pollIdx + 1, lastStatus := some s },
         [Event.pollAttempt true, Event.cmdState TaskState.on_, Event.waitComplete])) := by
  constructor <;> intro h <;>
    simp [machine_on, poll_status, poll_status_go, M.bind, M.readStatus, M.throw, M.emit,
      hpoll, h]

/-- Witness for C4 at concrete snapshots: ESTOP refuses with no
dispatch, ON-state machine dispatches the ON transition. -/
theorem c4_power_on_estop_gate_witness :
    machine_on (constEnv snap_estop) 1 st0 =
      (Except.error Err.estopActive,
       { st0 with pollIdx := 1, lastStatus := some snap_estop },
       [Event.pollAttempt true]) ∧
    machine_on (constEnv snap_on) 1 st0 =
      (Except.ok (),
       { st0 with pollIdx := 1, lastStatus := some snap_on },
       [Event.pollAttempt true, Event.cmdState TaskState.on_, Event.waitComplete]) :=
  ⟨(c4_power_on_estop_gate (constEnv snap_estop) 1 st0 snap_estop rfl).1 rfl,
   (c4_power_on_estop_gate (constEnv snap_on) 1 st0 snap_on rfl).2 (by decide)⟩

/-- C8: ensure-on is idempotent — when the polled task state is already
ON its whole behaviour is the single poll (no dispatch, no completion
wait); when it is ESTOP, the step dispatches ESTOP_RESET with a blocking
wait and re-polls, and only the re-polled state decides whether the ON
dispatch follows. -/
theorem c8_ensure_on_idempotent (env : Env) (i : ℚ) (st : St) (s1 : Snapshot)
    (hpoll : env.poll st.pollIdx = some s1) :
    (s1.task_state = TaskState.on_ →
      ensure_machine_on env i st =
        (Except.ok (), { st with pollIdx := st.pollIdx + 1, lastStatus := some s1 },
         [Event.pollAttempt true])) ∧
    (s1.task_state = TaskState.estop →
      ∀ s2 : Snapshot, env.poll (st.pollIdx + 1) = some s2 →
        ensure_machine_on env i st =
          (Except.ok (), { st with pollIdx := st.pollIdx + 1 + 1, lastStatus := some s2 },
           [Event.pollAttempt true, Event.cmdState TaskState.estopReset, Event.waitComplete,
            Event.pollAttempt true] ++
           (if s2.task_state = TaskState.on_ then []
            else [Event.cmdState TaskState.on_, Event.waitComplete]))) := by
  constructor
  · intro h
    simp [ensure_machine_on, poll_status, poll_status_go, M.bind, M.readStatus, M.pure,
      M.emit, hpoll, h]
  · intro h s2 hpoll2
    by_cases h2 : s2.task_state = TaskState.on_ <;>
      simp [ensure_machine_on, poll_status, poll_status_go, M.bind, M.readStatus, M.pure,
        M.emit, hpoll, hpoll2, h, h2]

/-- Environment whose first poll sees ESTOP and whose second sees ON. -/
def env_estop_then_on : Env :=
  { poll := fun k => if k = 0 then some snap_estop else some snap_on
    mdiErrors := fun _ => [] }

/-- Witness for C8: already-ON run is poll-only; ESTOP run resets, waits,
re-polls ON and therefore dispatches nothing further. -/
theorem c8_ensure_on_idempotent_witness :
    ensure_machine_on (constEnv snap_on) 1 st0 =
      (Except.ok (), { st0 with pollIdx := 1, lastStatus := some snap_on },
       [Event.pollAttempt true]) ∧
    ensure_machine_on env_estop_then_on 1 st0 =
      (Except.ok (), { st0 with pollIdx := 2, lastStatus := some snap_on },
       [Event.pollAttempt true, Event.cmdState TaskState.estopReset, Event.waitComplete,
        Event.pollAttempt true]) :=
  ⟨(c8_ensure_on_idempotent (constEnv snap_on) 1 st0 snap_on rfl).1 rfl,
   (c8_ensure_on_idempotent env_estop_then_on 1 st0 snap_estop rfl).2 rfl snap_on rfl⟩

/-- C6: the status refresh makes at most 3 poll attempts; after failed
attempt k (1-based, k = 1 or 2) it sleeps base_interval × k; it returns
normally iff one of the first 3 attempts succeeds (in particular
fail-fail-succeed succeeds, caching the attempt-3 snapshot), and raises
the Connection error iff all 3 attempts fail. -/
theorem c6_poll_retry (env : Env) (i : ℚ) (st : St) :
    (∀ s : Snapshot, env.poll st.pollIdx = some s →
      poll_status env i st =
        (Except.ok (), { st with pollIdx := st.pollIdx + 1, lastStatus := some s },
         [Event.pollAttempt true])) ∧
    (∀ s : Snapshot, env.poll st.pollIdx = none →
      env.poll (st.pollIdx + 1) = some s →
      poll_status env i st =
        (Except.ok (), { st with pollIdx := st.pollIdx + 1 + 1, lastStatus := some s },
         [Event.pollAttempt false, Event.sleep (i * 1), Event.pollAttempt true])) ∧
    (∀ s : Snapshot, env.poll st.pollIdx = none →
      env.poll (st.pollIdx + 1) = none →
      env.poll (st.pollIdx + 1 + 1) = some s →
      poll_status env i st =
        (Except.ok (), { st with pollIdx := st.pollIdx + 1 + 1 + 1, lastStatus := some s },
         [Event.pollAttempt false, Event.sleep (i * 1),
          Event.pollAttempt false, Event.sleep (i * 2), Event.pollAttempt true])) ∧
    (env.poll st.pollIdx = none →
      env.poll (st.pollIdx + 1) = none →
      env.poll (st.pollIdx + 1 + 1) = none →
      poll_status env i st =
        (Except.error Err.connection, { st with pollIdx := st.pollIdx + 1 + 1 + 1 },
         [Event.pollAttempt false, Event.sleep (i * 1),
          Event.pollAttempt false, Event.sleep (i * 2), Event.pollAttempt false])) ∧
    ((poll_status env i st).1 = Except.ok () ↔
      ((env.poll st.pollIdx).isSome ∨ (env.poll (st.pollIdx + 1)).isSome ∨
        (env.poll (st.pollIdx + 1 + 1)).isSome)) ∧
    ((poll_status env i st).2.2.countP is_poll_event ≤ 3) := by
  have h1 : ∀ s : Snapshot, env.poll st.pollIdx = some s →
      poll_status env i st =
        (Except.ok (), { st with pollIdx := st.pollIdx + 1, lastStatus := some s },
         [Event.pollAttempt true]) := by
    intro s h
    simp [poll_status, poll_status_go, h]
  have h2 : ∀ s : Snapshot, env.poll st.pollIdx = none →
      env.poll (st.pollIdx + 1) = some s →
      poll_status env i st =
        (Except.ok (), { st with pollIdx := st.pollIdx + 1 + 1, lastStatus := some s },
         [Event.pollAttempt false, Event.sleep (i * 1), Event.pollAttempt true]) := by
    intro s h h'
    simp [poll_status, poll_status_go, h, h']
  have h3 : ∀ s : Snapshot, env.poll st.pollIdx = none →
      env.poll (st.pollIdx + 1) = none →
      env.poll (st.pollIdx + 1 + 1) = some s →
      poll_status env i st =
        (Except.ok (), { st with pollIdx := st.pollIdx + 1 + 1 + 1, lastStatus := some s },
         [Event.pollAttempt false, Event.sleep (i * 1),
          Event.pollAttempt false, Event.sleep (i * 2), Event.pollAttempt true]) := by
    intro s h h' h''
    simp [poll_status, poll_status_go, h, h', h'']
  have h4 : env.poll st.pollIdx = none →
      env.poll (st.pollIdx + 1) = none →
      env.poll (st.pollIdx + 1 + 1) = none →
      poll_status env i st =
        (Except.error Err.connection, { st with pollIdx := st.pollIdx + 1 + 1 + 1 },
         [Event.pollAttempt false, Event.sleep (i * 1),
          Event.pollAttempt false, Event.sleep (i * 2), Event.pollAttempt false]) := by
    intro h h' h''
    simp [poll_status, poll_status_go, M.throw, h, h', h'']
  refine ⟨h1, h2, h3, h4, ?_, ?_⟩
  · rcases o0 : env.poll st.pollIdx with _ | s0
    · rcases o1 : env.poll (st.pollIdx + 1) with _ | s1
      · rcases o2 : env.poll (st.pollIdx + 1 + 1) with _ | s2
        · rw [h4 o0 o1 o2]
          simp
        · rw [h3 s2 o0 o1 o2]
          simp
      · rw [h2 s1 o0 o1]
        simp
    · rw [h1 s0 o0]
      simp
  · rcases o0 : env.poll st.pollIdx with _ | s0
    · rcases o1 : env.poll (st.pollIdx + 1) with _ | s1
      · rcases o2 : env.poll (st.pollIdx + 1 + 1) with _ | s2
        · rw [h4 o0 o1 o2]
          simp [List.countP_cons, is_poll_event]
        · rw [h3 s2 o0 o1 o2]
          simp [List.countP_cons, is_poll_event]
      · rw [h2 s1 o0 o1]
        simp [List.countP_cons, is_poll_event]
    · rw [h1 s0 o0]
      simp [List.countP_cons, is_poll_event]

/-- Environment failing the first two polls and succeeding on the
third. -/
def env_fail2 : Env :=
  { poll := fun k => if k < 2 then none else some defaultSnapshot
    mdiErrors := fun _ => [] }

/-- Witness for C6, Scenario E: polls fail on attempts 1 and 2, succeed
on attempt 3; the refresh succeeds with the attempt-3 snapshot and the
backoffs are base × 1 and base × 2. -/
theorem c6_poll_retry_witness :
    poll_status env_fail2 1 st0 =
      (Except.ok (), { st0 with pollIdx := 3, lastStatus := some defaultSnapshot },
       [Event.pollAttempt false, Event.sleep (1 * 1), Event.pollAttempt false,
        Event.sleep (1 * 2), Event.pollAttempt true]) :=
  (c6_poll_retry env_fail2 1 st0).2.2.1 defaultSnapshot rfl rfl rfl

/-- Positivity of the fuelled population count when the fuel suffices. -/
theorem popcountAux_pos : ∀ fuel n : Nat, 0 < n → n ≤ fuel → 0 < popcountAux fuel n := by
  intro fuel
  induction fuel with
  | zero =>
    intro n hn hle
    omega
  | succ f ih =>
    intro n hn hle
    cases n with
    | zero => omega
    | succ m =>
      show 0 < (m + 1) % 2 + popcountAux f ((m + 1) / 2)
      by_cases h2 : (m + 1) % 2 = 0
      · have hrec : 0 < popcountAux f ((m + 1) / 2) := ih ((m + 1) / 2) (by omega) (by omega)
        omega
      · omega

/-- The joint count derived at the verify site is always at least 1:
the population count of a positive mask is positive, and the fallback
is 3. -/
theorem num_joints_verify_pos (s : Snapshot) : 0 < num_joints_verify s := by
  unfold num_joints_verify
  by_cases h : 0 < s.axis_mask.getD 0
  · simp only [h, if_true]
    exact popcountAux_pos _ _ (by omega) (le_refl _)
  · simp [h]

/-- Full characterisation of the homed check under a constant
all-successful environment: one poll, then the pass/fail decision on the
cached flags. -/
theorem verify_machine_homed_const (s : Snapshot) (i : ℚ) (st : St) :
    verify_machine_homed (constEnv s) i st =
      ((match s.homed with
        | some hs =>
          if num_joints_verify s ≤ hs.length then
            if (hs.take (num_joints_verify s)).all (fun b => b) then Except.ok ()
            else Except.error Err.notHomed
          else Except.error Err.notHomed
        | none => Except.error Err.notHomed),
       { st with pollIdx := st.pollIdx + 1, lastStatus := some s },
       [Event.pollAttempt true]) := by
  cases hh : s.homed with
  | none =>
    simp [verify_machine_homed, poll_status, poll_status_go, M.bind, M.readStatus,
      M.throw, M.pure, constEnv, hh]
  | some hs =>
    by_cases hlen : num_joints_verify s ≤ hs.length
    · by_cases hall : (hs.take (num_joints_verify s)).all (fun b => b) = true
      · simp [verify_machine_homed, poll_status, poll_status_go, M.bind, M.readStatus,
          M.throw, M.pure, constEnv, hh, hlen, hall]
      · simp [verify_machine_homed, poll_status, poll_status_go, M.bind, M.readStatus,
          M.throw, M.pure, constEnv, hh, hlen, hall]
    · simp [verify_machine_homed, poll_status, poll_status_go, M.bind, M.readStatus,
        M.throw, M.pure, constEnv, hh, hlen]

/-- Having fewer than `n` true entries among the first `n` flags is the
same as failing the source's combined length-and-all check. -/
theorem count_take_lt_iff (hs : List Bool) (n : Nat) :
    (hs.take n).count true < n ↔
      ¬(n ≤ hs.length ∧ (hs.take n).all (fun b => b) = true) := by
  rcases le_or_lt n hs.length with hle | hlt
  · have hlen : (hs.take n).length = n := by
      rw [List.length_take]
      omega
    constructor
    · intro hcount hand
      obtain ⟨-, hall⟩ := hand
      have heq : (hs.take n).count true = (hs.take n).length := by
        rw [List.count_eq_length]
        intro b hb
        have hb' := List.all_eq_true.mp hall b hb
        simp at hb'
        exact hb'.symm
      omega
    · intro hnot
      have hall' : ¬((hs.take n).all (fun b => b) = true) := fun hall => hnot ⟨hle, hall⟩
      have hne : (hs.take n).count true ≠ (hs.take n).length := by
        intro heq
        apply hall'
        rw [List.all_eq_true]
        intro b hb
        exact (List.count_eq_length.mp heq b hb).symm
      have hcl : (hs.take n).count true ≤ (hs.take n).length := List.count_le_length ..
      omega
  · have htake : hs.take n = hs := List.take_of_length_le (by omega)
    constructor
    · intro _ hand
      omega
    · intro _
      have hcl : hs.count true ≤ hs.length := List.count_le_length ..
      rw [htake]
      omega

/-- C1: for every snapshot, the homed check fails with NotHomed iff
fewer than N of the homed-flags (their first N entries, an absent flag
list counting as empty) are true, where N is the verify-site joint count
— population count of a positive axis mask, 3 otherwise; and the check
consults no entry at index N or beyond: any two snapshots agreeing on N
and on the first N flags get the same verdict. -/
theorem c1_require_homed_iff :
    (∀ (s : Snapshot) (i : ℚ) (st : St),
      (verify_machine_homed (constEnv s) i st).1 = Except.error Err.notHomed ↔
        ((s.homed.getD []).take (num_joints_verify s)).count true < num_joints_verify s) ∧
    (∀ (s t : Snapshot) (i j : ℚ) (st st' : St),
      num_joints_verify s = num_joints_verify t →
      (s.homed.getD []).take (num_joints_verify s) =
        (t.homed.getD []).take (num_joints_verify t) →
      (verify_machine_homed (constEnv s) i st).1 =
        (verify_machine_homed (constEnv t) j st').1) := by
  have part1 : ∀ (s : Snapshot) (i : ℚ) (st : St),
      (verify_machine_homed (constEnv s) i st).1 = Except.error Err.notHomed ↔
        ((s.homed.getD []).take (num_joints_verify s)).count true < num_joints_verify s := by
    intro s i st
    rw [verify_machine_homed_const]
    cases hh : s.homed with
    | none =>
      simpa using num_joints_verify_pos s
    | some hs =>
      simp only [Option.getD_some]
      rw [count_take_lt_iff]
      by_cases hlen : num_joints_verify s ≤ hs.length
      · by_cases hall : (hs.take (num_joints_verify s)).all (fun b => b) = true
        · simp [hlen, hall]
        · simp [hlen, hall]
      · simp [hlen]
  have hcases : ∀ (u : Snapshot) (k : ℚ) (su : St),
      (verify_machine_homed (constEnv u) k su).1 = Except.ok () ∨
      (verify_machine_homed (constEnv u) k su).1 = Except.error Err.notHomed := by
    intro u k su
    rw [verify_machine_homed_const]
    cases u.homed with
    | none => simp
    | some hs =>
      by_cases h1 : num_joints_verify u ≤ hs.length
      · by_cases h2 : (hs.take (num_joints_verify u)).all (fun b => b) = true
        · simp [h1, h2]
        · simp [h1, h2]
      · simp [h1]
  refine ⟨part1, ?_⟩
  intro s t i j st st' hN htake
  have hcnt : ((s.homed.getD []).take (num_joints_verify s)).count true <
      num_joints_verify s ↔
      ((t.homed.getD []).take (num_joints_verify t)).count true < num_joints_verify t := by
    rw [htake, hN]
  rcases hcases s i st with h | h <;> rcases hcases t j st' with h' | h'
  · rw [h, h']
  · exfalso
    have hc : ((t.homed.getD []).take (num_joints_verify t)).count true <
        num_joints_verify t := (part1 t j st').mp h'
    have hs' : ((s.homed.getD []).take (num_joints_verify s)).count true <
        num_joints_verify s := hcnt.mpr hc
    have : (verify_machine_homed (constEnv s) i st).1 = Except.error Err.notHomed :=
      (part1 s i st).mpr hs'
    rw [h] at this
    exact Except.noConfusion this
  · exfalso
    have hc : ((s.homed.getD []).take (num_joints_verify s)).count true <
        num_joints_verify s := (part1 s i st).mp h
    have ht' : ((t.homed.getD []).take (num_joints_verify t)).count true <
        num_joints_verify t := hcnt.mp hc
    have : (verify_machine_homed (constEnv t) j st').1 = Except.error Err.notHomed :=
      (part1 t j st').mpr ht'
    rw [h'] at this
    exact Except.noConfusion this
  · rw [h, h']

/-- Snapshot with three configured joints (mask 7) whose middle joint is
not homed. -/
def c1snap : Snapshot :=
  { defaultSnapshot with homed := some [true, false, true], axis_mask := some 7 }

/-- Same first three flags as `c1snap` but with a fourth flag the check
must not consult. -/
def c1snap2 : Snapshot :=
  { defaultSnapshot with homed := some [true, false, true, true], axis_mask := some 7 }

/-- Witness for C1 at a concrete snapshot: [true, false, true] with mask
7 (N = 3) fails the check, and a fourth flag beyond index N-1 does not
change the verdict. -/
theorem c1_require_homed_iff_witness :
    (verify_machine_homed (constEnv c1snap) 1 st0).1 = Except.error Err.notHomed ∧
    (verify_machine_homed (constEnv c1snap) 1 st0).1 =
      (verify_machine_homed (constEnv c1snap2) 2 st0).1 :=
  ⟨(c1_require_homed_iff.1 c1snap 1 st0).mpr (by decide),
   c1_require_homed_iff.2 c1snap c1snap2 1 2 st0 st0 (by decide) (by decide)⟩

/-- C5: the command builder is a pure function whose word order is
always G21, then G90/G91 by positioning mode, then G0/G1 by rapid flag,
then X, Y, Z words exactly for the axes whose value is present (4
decimal places), then an F word (4 decimal places) exactly when rapid is
false; and it maps the two scenario inputs to their exact command
texts. -/
theorem c5_command_builder :
    (∀ (x y z : Option ℚ) (feed : ℚ) (rapid absolute : Bool),
      build_gcode_command x y z feed rapid absolute =
        String.intercalate " "
          (["G21", if absolute then "G90" else "G91", if rapid then "G0" else "G1"] ++
           (match x with
            | some v => ["X" ++ fmt4 v]
            | none => ([] : List String)) ++
           (match y with
            | some v => ["Y" ++ fmt4 v]
            | none => ([] : List String)) ++
           (match z with
            | some v => ["Z" ++ fmt4 v]
            | none => ([] : List String)) ++
           (if rapid then ([] : List String) else ["F" ++ fmt4 feed]))) ∧
    build_gcode_command (some 10) (some 20) (some 5) 1000 false true =
      "G21 G90 G1 X10.0000 Y20.0000 Z5.0000 F1000.0000" ∧
    build_gcode_command (some (-5)) none none 1000 true false =
      "G21 G91 G0 X-5.0000" := by
  refine ⟨?_, ?_, ?_⟩
  · intro x y z feed rapid absolute
    cases x <;> cases y <;> cases z <;> cases rapid <;> cases absolute <;> rfl
  · norm_num [build_gcode_command, fmt4, roundHalfEven, Rat.floor_def', padZeros]
    decide
  · norm_num [build_gcode_command, fmt4, roundHalfEven, Rat.floor_def', padZeros]
    decide

/-- C9: for every successfully polled position sequence with at least 3
entries, `get_current_position` returns the mapping with exactly the
keys x, y, z, a in that order, where x, y, z are the first three entries
and a is the fourth entry when present and 0.0 otherwise. -/
theorem c9_get_position (env : Env) (i : ℚ) (st : St) (s : Snapshot)
    (p0 p1 p2 : ℚ) (rest : List ℚ)
    (hpoll : env.poll st.pollIdx = some s)
    (hpos : s.position = p0 :: p1 :: p2 :: rest) :
    (get_current_position env i st).1 =
      Except.ok [("x", p0), ("y", p1), ("z", p2), ("a", rest.headD 0)] := by
  cases rest with
  | nil =>
    simp [get_current_position, poll_status, poll_status_go, M.bind, M.readStatus,
      M.pure, hpoll, hpos]
  | cons a as =>
    simp [get_current_position, poll_status, poll_status_go, M.bind, M.readStatus,
      M.pure, hpoll, hpos]

/-- Snapshot with a four-entry position sequence. -/
def c9snap : Snapshot := { defaultSnapshot with position := [1, 2, 3, 4] }

/-- Witness for C9: position [1, 2, 3, 4] maps to x=1, y=2, z=3, a=4. -/
theorem c9_get_position_witness :
    (get_current_position (constEnv c9snap) 1 st0).1 =
      Except.ok [("x", 1), ("y", 2), ("z", 3), ("a", (4 : ℚ))] :=
  c9_get_position (constEnv c9snap) 1 st0 c9snap 1 2 3 [4] rfl rfl

/-- The report construction can never set both exclusivity flags: both
compare the one task-state value against the distinct constants ESTOP
and ON. -/
theorem mk_status_report_exclusive (s : Snapshot) (pos : List (String × ℚ)) :
    ((mk_status_report s pos).estop_active && (mk_status_report s pos).machine_on) = false := by
  obtain ⟨p, hom, mask, ts, istate, vel⟩ := s
  cases ts <;> rfl

/-- C10: in every status report `get_machine_status` returns
successfully, estop_active and machine_on are never both true; both are
derived from the same polled task-state value by comparison against the
distinct constants ESTOP and ON. -/
theorem c10_status_flags_exclusive (env : Env) (i : ℚ) (st st2 : St)
    (rep : StatusReport) (evs : List Event)
    (h : get_machine_status env i st = (Except.ok rep, st2, evs)) :
    (rep.estop_active && rep.machine_on) = false := by
  unfold get_machine_status at h
  obtain ⟨u1, stA, evs1, evs2, hpoll, h, hevs⟩ := M.bind_ok h
  obtain ⟨posv, stB, evs3, evs4, hposcall, h, hevs2⟩ := M.bind_ok h
  have hfst : (M.bind M.readStatus (fun s => M.pure (mk_status_report s posv)) stB).1 =
      Except.ok rep := congrArg Prod.fst h
  have hok : Except.ok (mk_status_report (stB.lastStatus.getD defaultSnapshot) posv) =
      Except.ok rep := hfst
  have hrep := Except.ok.inj hok
  rw [← hrep]
  exact mk_status_report_exclusive _ _

/-- Unfolding a bind whose first half is known to succeed. -/
theorem M.bind_comp_ok {α β : Type} {m : M α} {st st1 : St} {a : α} {evs1 : List Event}
    (f : α → M β) (hm : m st = (Except.ok a, st1, evs1)) :
    M.bind m f st = ((f a st1).1, (f a st1).2.1, evs1 ++ (f a st1).2.2) := by
  unfold M.bind
  rw [hm]

/-- Unfolding a bind whose first half is known to fail: the failure
short-circuits, and the second half contributes nothing. -/
theorem M.bind_comp_err {α β : Type} {m : M α} {st st1 : St} {e : Err} {evs1 : List Event}
    (f : α → M β) (hm : m st = (Except.error e, st1, evs1)) :
    M.bind m f st = (Except.error e, st1, evs1) := by
  unfold M.bind
  rw [hm]

/-- Snapshot for the C10 witness: machine on, three position entries. -/
def c10snap : Snapshot :=
  { defaultSnapshot with position := [0, 0, 0], task_state := TaskState.on_ }

/-- Witness for C10: a concrete successful status read has the two flags
not both true. -/
theorem c10_status_flags_exclusive_witness :
    ((mk_status_report c10snap [("x", 0), ("y", 0), ("z", 0), ("a", 0)]).estop_active &&
     (mk_status_report c10snap [("x", 0), ("y", 0), ("z", 0), ("a", 0)]).machine_on) = false :=
  c10_status_flags_exclusive (constEnv c10snap) 1 st0
    { pollIdx := 2, lastStatus := some c10snap, errQueue := [] }
    (mk_status_report c10snap [("x", 0), ("y", 0), ("z", 0), ("a", 0)])
    [Event.pollAttempt true, Event.pollAttempt true] rfl

/-- C2: a move call (absolute or relative, any axes/feed/wait) against a
snapshot whose configured-joint flags fail the homed check raises
NotHomed; the trace is exactly the stale-error drain, then the ensure-on
step, then the homed check's poll — so drain and ensure-on precede the
check, and no MDI mode switch and no MDI dispatch (hence no built
command) ever happen. -/
theorem c2_move_not_homed_gated (s : Snapshot) (hs : List Bool) (st : St) (i : ℚ)
    (fuel : Nat) (x y z : Option ℚ) (feed : ℚ) (rapid absolute wait : Bool)
    (hhomed : s.homed = some hs)
    (hbad : (hs.take (num_joints_verify s)).all (fun b => b) = false) :
    (execute_move (constEnv s) i fuel x y z feed rapid absolute wait st).1 =
      Except.error Err.notHomed ∧
    (execute_move (constEnv s) i fuel x y z feed rapid absolute wait st).2.2 =
      drain_events st.errQueue ++ ensure_on_events_const s ++ [Event.pollAttempt true] ∧
    (∀ g, Event.cmdMdi g ∉
      (execute_move (constEnv s) i fuel x y z feed rapid absolute wait st).2.2) ∧
    (∀ m, Event.cmdMode m ∉
      (execute_move (constEnv s) i fuel x y z feed rapid absolute wait st).2.2) := by
  have hdrain : drain_error_messages st =
      (Except.ok st.errQueue, { st with errQueue := [] }, drain_events st.errQueue) := rfl
  have hens := ensure_machine_on_const s i { st with errQueue := [] }
  have hv : ∀ st' : St, verify_machine_homed (constEnv s) i st' =
      (Except.error Err.notHomed,
       { st' with pollIdx := st'.pollIdx + 1, lastStatus := some s },
       [Event.pollAttempt true]) := by
    intro st'
    rw [verify_machine_homed_const]
    by_cases hlen : num_joints_verify s ≤ hs.length
    · simp [hhomed, hlen, hbad]
    · simp [hhomed, hlen]
  have hrun : execute_move (constEnv s) i fuel x y z feed rapid absolute wait st =
      (Except.error Err.notHomed,
       { pollIdx := st.pollIdx + ensure_poll_count s + 1
         lastStatus := some s
         errQueue := [] },
       drain_events st.errQueue ++ (ensure_on_events_const s ++ [Event.pollAttempt true])) := by
    unfold execute_move
    rw [M.bind_comp_ok _ hdrain]
    dsimp only
    rw [M.bind_comp_ok _ hens]
    dsimp only
    rw [M.bind_comp_err _ (hv _)]
  refine ⟨?_, ?_, ?_, ?_⟩
  · rw [hrun]
  · rw [hrun]
    simp [List.append_assoc]
  · intro g
    rw [hrun]
    by_cases h1 : s.task_state = TaskState.estop <;>
      by_cases h2 : s.task_state = TaskState.on_ <;>
        simp [drain_events, ensure_on_events_const, h1, h2]
  · intro m
    rw [hrun]
    by_cases h1 : s.task_state = TaskState.estop <;>
      by_cases h2 : s.task_state = TaskState.on_ <;>
        simp [drain_events, ensure_on_events_const, h1, h2]

/-- Witness for C2, Scenario C: flags [true, false, true] over three
configured joints make a concrete absolute move fail with NotHomed. -/
theorem c2_move_not_homed_gated_witness :
    (execute_move (constEnv c1snap) 1 0 (some 10) none none 1000 false true true st0).1 =
      Except.error Err.notHomed :=
  (c2_move_not_homed_gated c1snap [true, false, true] st0 1 0 (some 10) none none 1000
    false true true rfl (by decide)).1

/-- Filtering the home-dispatch events out of a mapped range keeps all
of them. -/
theorem filter_home_map_range (l : List Nat) :
    (l.map Event.cmdHome).filter is_home_event = l.map Event.cmdHome := by
  induction l with
  | nil => rfl
  | cons a as ih => simp [is_home_event, ih]

/-- The ensure-on step never dispatches a home request. -/
theorem ensure_on_events_no_home (s : Snapshot) :
    (ensure_on_events_const s).filter is_home_event = [] := by
  unfold ensure_on_events_const
  split_ifs <;> rfl

/-- The homing completion wait only polls and sleeps: it never
dispatches a home request, whatever its fuel. -/
theorem wait_homing_no_home_events (s : Snapshot) (i : ℚ) (n : Nat) :
    ∀ (fuel : Nat) (st : St),
      ((wait_for_homing_complete (constEnv s) i n fuel st).2.2).filter is_home_event = [] := by
  intro fuel
  induction fuel with
  | zero => intro st; rfl
  | succ f ih =>
    intro st
    unfold wait_for_homing_complete
    rw [M.bind_comp_ok _ (poll_status_const s i st)]
    dsimp only
    rw [M.bind_comp_ok _ (rfl :
      M.readStatus { st with pollIdx := st.pollIdx + 1, lastStatus := some s } =
        (Except.ok s, { st with pollIdx := st.pollIdx + 1, lastStatus := some s }, []))]
    dsimp only
    split <;> split <;>
      first
      | rfl
      | (dsimp only [M.bind, M.emit]
         simp [List.filter_append, is_home_event, ih])

/-- C7: the joint-count derivation at the homing site and the one at the
homed-check site are the same function of the snapshot (population count
of a positive axis mask, 3 otherwise), and the homing operation issues
home requests exactly for joint indices 0..N-1 in ascending order — the
home-dispatch subsequence of its whole trace is precisely
range N mapped through cmdHome. -/
theorem c7_joint_count_consistent :
    (∀ s : Snapshot, num_joints_verify s = num_joints_home s) ∧
    (∀ (s : Snapshot) (i : ℚ) (fuel : Nat) (wait : Bool) (st : St),
      ((home_all_axes (constEnv s) i fuel wait st).2.2).filter is_home_event =
        (List.range (num_joints_home s)).map Event.cmdHome) := by
  refine ⟨fun s => rfl, ?_⟩
  intro s i fuel wait st
  have hens := ensure_machine_on_const s i st
  unfold home_all_axes
  rw [M.bind_comp_ok _ hens]
  by_cases hw : wait <;>
    simp [hw, M.bind, M.emit, M.pure, M.readStatus, poll_status_const, home_joints,
      List.filter_append, ensure_on_events_no_home, filter_home_map_range,
      wait_homing_no_home_events, is_home_event]

end CNC
